import Mathlib

/-!
# Event controller of ummah-connect: ticketing, RSVP and lifecycle

Shallow embedding of `server/controllers/eventController.js` (with the
create-event validator of the same file).  Every handler is a pure function
from the database state and the request to the response it sends and the
database state it leaves behind.

* Mongo documents are records; a collection is a list of documents in
  storage order; `findById` is the first document carrying the id.
* A persistence call that rejects (the `catch` blocks of the handlers) is an
  input of the handler: `Faults` names the call that throws and the message.
* Numbers of the ticket inventory are integers; dates are integer instants.
-/

namespace UmmahConnect

/-! ## Data model -/

/-- Modelled from the spec: the ticket sub-document of `models/eventModel`
(not among the sources).  The controller reads `event.tickets.quantity`
(tickets still available) and `event.tickets.sold`. -/
structure Tickets where
  quantity : Int
  sold : Int
deriving DecidableEq, Repr

/-- Modelled from the spec: the Event document of `models/eventModel` (not
among the sources), with the fields the controller reads and writes. -/
structure Event where
  _id : Nat
  title : String
  subTitle : Option String
  description : String
  date : Int
  location : String
  organizer : Nat
  trending : Bool
  photo : Option String
  attendees : List Nat
  limit : Int
  tickets : Tickets
deriving DecidableEq, Repr

/-- Modelled from the spec: the User document of `models/authModel` (not among
the sources), with the fields `buyTicket` reads. -/
structure User where
  _id : Nat
  firstName : String
  emailAddress : String
deriving DecidableEq, Repr

/-- The two collections the controller talks to. -/
structure Db where
  events : List Event
  users : List User
deriving DecidableEq, Repr

/-- Persistence calls that reject: `find` is `Event.findById` / `Event.find`,
`save` is `event.save()` / `event.deleteOne()` and the write of
`decreaseTicketQuantity`, `user` is `User.findById`.  `none` means the call
resolves. -/
structure Faults where
  find : Option String
  save : Option String
  user : Option String
deriving DecidableEq, Repr

/-- Every persistence call resolves. -/
def noFaults : Faults := ⟨none, none, none⟩

/-- What `res.json` is given. -/
inductive Body where
  | message (m : String)
  | event (e : Event)
  | events (es : List Event)
  | user (u : User)
  | ticketsSold (n : Int)
  | errors (es : List String)
deriving DecidableEq, Repr

/-- A response: `res.status(s).json(b)`; `res.json(b)` alone is status 200. -/
structure Response where
  status : Nat
  body : Body
deriving DecidableEq, Repr

/-! ## Persistence layer -/

/-- Lookup `Event.findById(id)`: the document with that `_id`, or `null`. -/
def findById (es : List Event) (id : Nat) : Option Event :=
  es.find? (fun e => e._id == id)

/-- Lookup `User.findById(id)`: the user with that `_id`, or `null`. -/
def findUserById (us : List User) (id : Nat) : Option User :=
  us.find? (fun u => u._id == id)

/-- Call `event.save()` on a loaded document: the stored document with the same
`_id` is replaced. -/
def saveEvent : List Event → Event → List Event
  | [], _ => []
  | x :: xs, e => if x._id == e._id then e :: xs else x :: saveEvent xs e

/-- Call `event.deleteOne()`: the stored document with that `_id` is removed. -/
def deleteOne (es : List Event) (e : Event) : List Event :=
  es.eraseP (fun x => x._id == e._id)

/-- The `_id` a new document gets: one not used by any stored event. -/
def freshId (es : List Event) : Nat :=
  (es.map (fun e => e._id)).foldr max 0 + 1

/-! ## Handlers -/

/-- A field of the request body as `updateEvent` meets it: the raw JSON value,
classed by what the handler and the schema path make of it.  `absent`: the body
does not carry the field (`undefined`).  `falsy`: a falsy value (`null`,
`false`, `0`, the empty string).  `value v`: a truthy value that the schema
path takes, stored as `v` (the string itself for a string path; for the date
the instant a non-empty date string or a non-zero number denotes, so the ISO
string of instant 0 is `value 0`).  `invalid msg`: a truthy value that the
schema path cannot cast, with the message of the validation error. -/
inductive BodyValue (α : Type) where
  | absent
  | falsy
  | value (v : α)
  | invalid (msg : String)
deriving DecidableEq, Repr

/-- JavaScript `a || b` on a body field and the existing value of a required
path. -/
def BodyValue.orElse {α : Type} (a : BodyValue α) (b : α) : α :=
  match a with
  | .value v => v
  | _ => b

/-- JavaScript `a || b` on a body field and the existing value of an optional
path. -/
def BodyValue.orElseOpt {α : Type} (a : BodyValue α) (b : Option α) : Option α :=
  match a with
  | .value v => some v
  | _ => b

/-- The validation error a body field assigned to the path `path` leaves on the
document. -/
def BodyValue.error {α : Type} (path : String) : BodyValue α → List String
  | .invalid msg => [path ++ ": " ++ msg]
  | _ => []

/-- The request body of `updateEvent`: `{ title, subTitle, description, date,
location } = req.body`. -/
structure Patch where
  title : BodyValue String
  subTitle : BodyValue String
  description : BodyValue String
  date : BodyValue Int
  location : BodyValue String
deriving DecidableEq, Repr

/-- The five assignments of `updateEvent` on the loaded document. -/
def applyPatch (event : Event) (p : Patch) : Event :=
  { event with
    title := p.title.orElse event.title
    subTitle := p.subTitle.orElseOpt event.subTitle
    description := p.description.orElse event.description
    date := p.date.orElse event.date
    location := p.location.orElse event.location }

/-- The validation errors the five assignments leave on the document. -/
def patchErrors (p : Patch) : List String :=
  p.title.error "title" ++ p.subTitle.error "subTitle" ++
  p.description.error "description" ++ p.date.error "date" ++
  p.location.error "location"

/-- What `event.save()` of `updateEvent` rejects with: the validation error of
the assigned values when there is one, else the persistence fault. -/
def updateSaveError (f : Faults) (p : Patch) : Option String :=
  match patchErrors p with
  | [] => f.save
  | errs => some ("Event validation failed: " ++ ", ".intercalate errs)

/-- Handler `getEvent`. -/
def getEvent (db : Db) (f : Faults) (id : Nat) : Response × Db :=
  match f.find with
  | some m => (⟨400, .message m⟩, db)
  | none =>
    match findById db.events id with
    | some event => (⟨200, .event event⟩, db)
    | none => (⟨404, .message "Event not found"⟩, db)

/-- Handler `updateEvent`. -/
def updateEvent (db : Db) (f : Faults) (id : Nat) (p : Patch) : Response × Db :=
  match f.find with
  | some m => (⟨400, .message m⟩, db)
  | none =>
    match findById db.events id with
    | some event =>
      match updateSaveError f p with
      | some m => (⟨400, .message m⟩, db)
      | none =>
        let updatedEvent := applyPatch event p
        (⟨200, .event updatedEvent⟩, { db with events := saveEvent db.events updatedEvent })
    | none => (⟨404, .message "Event not found"⟩, db)

/-- Handler `deleteEvent`. -/
def deleteEvent (db : Db) (f : Faults) (id : Nat) : Response × Db :=
  match f.find with
  | some m => (⟨400, .message m⟩, db)
  | none =>
    match findById db.events id with
    | some event =>
      match f.save with
      | some m => (⟨400, .message m⟩, db)
      | none => (⟨200, .message "Event removed"⟩, { db with events := deleteOne db.events event })
    | none => (⟨404, .message "Event not found"⟩, db)

/-- Handler `rsvpEvent`; `userId` is `req.user._id`. -/
def rsvpEvent (db : Db) (f : Faults) (id : Nat) (userId : Nat) : Response × Db :=
  match f.find with
  | some m => (⟨400, .message m⟩, db)
  | none =>
    match findById db.events id with
    | some event =>
      if !event.attendees.contains userId then
        match f.save with
        | some m => (⟨400, .message m⟩, db)
        | none =>
          let event' := { event with attendees := event.attendees ++ [userId] }
          (⟨200, .message "RSVP successful"⟩, { db with events := saveEvent db.events event' })
      else (⟨400, .message "Already RSVPed"⟩, db)
    | none => (⟨404, .message "Event not found"⟩, db)

/-- Handler `upcomingEvents`, with `now` the value of `Date.now()`. -/
def upcomingEvents (db : Db) (f : Faults) (now : Int) : Response :=
  match f.find with
  | some _ => ⟨500, .message "Internal server error"⟩
  | none => ⟨200, .events (db.events.filter (fun e => decide (e.date > now)))⟩

/-- Handler `pastEvents`, with `now` the value of `Date.now()`. -/
def pastEvents (db : Db) (f : Faults) (now : Int) : Response :=
  match f.find with
  | some _ => ⟨500, .message "Internal server error"⟩
  | none => ⟨200, .events (db.events.filter (fun e => decide (e.date ≤ now)))⟩

/-- Handler `trendingEvents`. -/
def trendingEvents (db : Db) (f : Faults) : Response :=
  match f.find with
  | some _ => ⟨500, .message "Internal server error"⟩
  | none => ⟨200, .events (db.events.filter (fun e => e.trending == true))⟩

/-- Modelled from the spec: the method `decreaseTicketQuantity` of
`models/eventModel` (not among the sources).  The spec has the accepted
purchase increment sold by the quantity, with sold + available = limit; the
method takes the quantity out of `tickets.quantity`, adds it to `tickets.sold`
and stores the document. -/
def decreaseTicketQuantity (event : Event) (quantity : Int) : Event :=
  { event with
    tickets := { quantity := event.tickets.quantity - quantity
                 sold := event.tickets.sold + quantity } }

/-- Handler `buyTicket`; `userId` is `req.user._id`, `quantity` is `req.body.quantity`
(an integer here), `mail` is the error `transporter.sendMail` calls back with
(`none`: the mail went out).  The handler does not await
`decreaseTicketQuantity`: when its write rejects the store keeps the old
document and the handler goes on to its answer. -/
def buyTicket (db : Db) (f : Faults) (eventId userId : Nat) (quantity : Int)
    (mail : Option String) : Response × Db :=
  match f.find with
  | some m => (⟨500, .message m⟩, db)
  | none =>
    match findById db.events eventId with
    | none => (⟨404, .message "Event not found"⟩, db)
    | some event =>
      if event.tickets.quantity < quantity then
        (⟨400, .message "Not enough tickets available"⟩, db)
      else
        let db' :=
          match f.save with
          | some _ => db
          | none => { db with
              events := saveEvent db.events (decreaseTicketQuantity event quantity) }
        match f.user with
        | some m => (⟨500, .message m⟩, db')
        | none =>
          match findUserById db.users userId with
          | none => (⟨404, .message "User not found"⟩, db')
          | some _ =>
            match mail with
            | some m => (⟨500, .message m⟩, db')
            | none => (⟨200, .message "Ticket purchased and email sent"⟩, db')

/-- Handler `getTicketsSold`. -/
def getTicketsSold (db : Db) (f : Faults) (eventId : Nat) : Response × Db :=
  match f.find with
  | some m => (⟨500, .message m⟩, db)
  | none =>
    match findById db.events eventId with
    | none => (⟨404, .message "Event not found"⟩, db)
    | some event => (⟨200, .ticketsSold event.tickets.sold⟩, db)

/-- The request body of `createEvent`. -/
structure CreateBody where
  title : String
  subTitle : Option String
  description : String
  date : Int
  location : String
  trending : Option Bool
  photo : Option String
  limit : Int
  tickets : Tickets
deriving DecidableEq, Repr

/-- Middleware `validateCreateEvent`: the messages of the checks that fail (the date is
an instant by its type). -/
def validateCreateEvent (b : CreateBody) : List String :=
  (if b.title == "" then ["Title is required"] else []) ++
  (if b.description == "" then ["Description is required"] else []) ++
  (if b.location == "" then ["Location is required"] else []) ++
  (if b.limit < 1 then ["Limit must be a positive integer"] else [])

/-- Handler `createEvent`; `userId` is `req.user._id`.  The new document takes no
attendees from the body: its attendee list is the empty array a new document
of the schema starts with.  A validation error of the schema is a rejecting
`save`. -/
def createEvent (db : Db) (f : Faults) (userId : Nat) (b : CreateBody) : Response × Db :=
  match f.save with
  | some m => (⟨400, .message m⟩, db)
  | none =>
    let createdEvent : Event :=
      { _id := freshId db.events
        title := b.title
        subTitle := b.subTitle
        description := b.description
        date := b.date
        location := b.location
        organizer := userId
        trending := b.trending.getD false
        photo := b.photo
        attendees := []
        limit := b.limit
        tickets := b.tickets }
    (⟨201, .event createdEvent⟩, { db with events := db.events ++ [createdEvent] })

/-- The route `POST /events`: the validator, then `createEvent`. -/
def postEvent (db : Db) (f : Faults) (userId : Nat) (b : CreateBody) : Response × Db :=
  match validateCreateEvent b with
  | [] => createEvent db f userId b
  | errs => (⟨400, .errors errs⟩, db)

/-! ## Route parameters

The handlers above take the `_id` a well-formed route parameter denotes.  The
routes pass any string: on one that is not a well-formed ObjectId
`Event.findById` rejects with a CastError before any lookup, and the `catch`
block of the handler answers. -/

/-- The route parameter `req.params.id` / `req.params.eventId`: the string of a
well-formed ObjectId, standing for the `_id` it denotes, or any other
string. -/
inductive IdParam where
  | objectId (id : Nat)
  | malformed (raw : String)
deriving DecidableEq, Repr

/-- The message of the CastError that `Event.findById` rejects a malformed id
with. -/
def castError (raw : String) : String :=
  "Cast to ObjectId failed for value " ++ raw ++ " at path _id for model Event"

/-- Whether the store holds an event with the id of the route parameter; no
stored `_id` is a malformed string. -/
def storeHolds (db : Db) : IdParam → Bool
  | .objectId id => (findById db.events id).isSome
  | .malformed _ => false

/-- Handler `getEvent` on the raw route parameter. -/
def getEventAt (db : Db) (f : Faults) : IdParam → Response × Db
  | .objectId id => getEvent db f id
  | .malformed raw => (⟨400, .message (castError raw)⟩, db)

/-- Handler `updateEvent` on the raw route parameter. -/
def updateEventAt (db : Db) (f : Faults) (param : IdParam) (p : Patch) : Response × Db :=
  match param with
  | .objectId id => updateEvent db f id p
  | .malformed raw => (⟨400, .message (castError raw)⟩, db)

/-- Handler `deleteEvent` on the raw route parameter. -/
def deleteEventAt (db : Db) (f : Faults) : IdParam → Response × Db
  | .objectId id => deleteEvent db f id
  | .malformed raw => (⟨400, .message (castError raw)⟩, db)

/-- Handler `rsvpEvent` on the raw route parameter. -/
def rsvpEventAt (db : Db) (f : Faults) (param : IdParam) (userId : Nat) : Response × Db :=
  match param with
  | .objectId id => rsvpEvent db f id userId
  | .malformed raw => (⟨400, .message (castError raw)⟩, db)

/-- Handler `buyTicket` on the raw route parameter. -/
def buyTicketAt (db : Db) (f : Faults) (param : IdParam) (userId : Nat) (quantity : Int)
    (mail : Option String) : Response × Db :=
  match param with
  | .objectId id => buyTicket db f id userId quantity mail
  | .malformed raw => (⟨500, .message (castError raw)⟩, db)

/-- Handler `getTicketsSold` on the raw route parameter. -/
def getTicketsSoldAt (db : Db) (f : Faults) : IdParam → Response × Db
  | .objectId id => getTicketsSold db f id
  | .malformed raw => (⟨500, .message (castError raw)⟩, db)

/-! ## Requests and runs -/

/-- A request to one of the handlers that keep events in the store; `create`
is the handler `createEvent` alone, `post` the route with its validator. -/
inductive Request where
  | create (userId : Nat) (body : CreateBody)
  | post (userId : Nat) (body : CreateBody)
  | update (id : Nat) (p : Patch)
  | rsvp (id : Nat) (userId : Nat)
  | buy (eventId : Nat) (userId : Nat) (quantity : Int) (mail : Option String)
deriving DecidableEq, Repr

/-- Dispatch of a request to its handler. -/
def handle (db : Db) (f : Faults) : Request → Response × Db
  | .create userId body => createEvent db f userId body
  | .post userId body => postEvent db f userId body
  | .update id p => updateEvent db f id p
  | .rsvp id userId => rsvpEvent db f id userId
  | .buy eventId userId quantity mail => buyTicket db f eventId userId quantity mail

/-- Requests handled one after the other, each with its own persistence
outcome; the database that is left. -/
def run (db : Db) : List (Faults × Request) → Db
  | [] => db
  | (f, r) :: rest => run (handle db f r).2 rest

/-- The requested quantity of a purchase is a non-negative integer (any other
request passes). -/
def Request.quantityNonneg : Request → Prop
  | .buy _ _ quantity _ => 0 ≤ quantity
  | _ => True

/-- The ticket inventory of an event in the spec's terms (limit, sold): sold
is between 0 and the limit and the remaining quantity `tickets.quantity` is
`limit - sold`. -/
def InventoryOk (e : Event) : Prop :=
  0 ≤ e.tickets.sold ∧ e.tickets.sold ≤ e.limit ∧
    e.tickets.quantity + e.tickets.sold = e.limit

instance (e : Event) : Decidable (InventoryOk e) := by
  unfold InventoryOk
  infer_instance

/-- The upper bound of the ticket inventory as the handlers keep it: sold is at
most the limit, and so is sold plus the remaining quantity
`tickets.quantity`. -/
def WithinLimit (e : Event) : Prop :=
  e.tickets.sold ≤ e.limit ∧ e.tickets.sold + e.tickets.quantity ≤ e.limit

instance (e : Event) : Decidable (WithinLimit e) := by
  unfold WithinLimit
  infer_instance

/-- Partial update of a field, in the spec's words: the patch's value when it
is present and truthy, the existing value when it is absent or falsy. -/
def PatchedField {α : Type} (patch : BodyValue α) (old new : α) : Prop :=
  (∀ v, patch = .value v → new = v) ∧
  (patch = .absent ∨ patch = .falsy → new = old)

/-- Partial update of an optional field, in the spec's words. -/
def PatchedOptField {α : Type} (patch : BodyValue α) (old new : Option α) : Prop :=
  (∀ v, patch = .value v → new = some v) ∧
  (patch = .absent ∨ patch = .falsy → new = old)

/-! ## Two purchases in flight

`buyTicket` suspends at each `await`; between its steps another request may
run.  A request in flight keeps the document it loaded. -/

/-- Where a `buyTicket` request stands. -/
inductive Pc where
  | start
  | loaded (event : Option Event)
  | checked (event : Event)
  | decreased (event : Event)
  | done (r : Response)
deriving DecidableEq, Repr

/-- A `buyTicket` request in flight. -/
structure Purchase where
  eventId : Nat
  userId : Nat
  quantity : Int
  mail : Option String
  pc : Pc
deriving DecidableEq, Repr

/-- One step of a purchase against the current database: load the event,
compare `event.tickets.quantity` with the quantity, `decreaseTicketQuantity`
on the loaded document (stored), load the user and answer. -/
def Purchase.step (db : Db) (r : Purchase) : Db × Purchase :=
  match r.pc with
  | .start => (db, { r with pc := .loaded (findById db.events r.eventId) })
  | .loaded none => (db, { r with pc := .done ⟨404, .message "Event not found"⟩ })
  | .loaded (some event) =>
    if event.tickets.quantity < r.quantity then
      (db, { r with pc := .done ⟨400, .message "Not enough tickets available"⟩ })
    else (db, { r with pc := .checked event })
  | .checked event =>
    let event' := decreaseTicketQuantity event r.quantity
    ({ db with events := saveEvent db.events event' }, { r with pc := .decreased event' })
  | .decreased _ =>
    match findUserById db.users r.userId with
    | none => (db, { r with pc := .done ⟨404, .message "User not found"⟩ })
    | some _ =>
      match r.mail with
      | some m => (db, { r with pc := .done ⟨500, .message m⟩ })
      | none => (db, { r with pc := .done ⟨200, .message "Ticket purchased and email sent"⟩ })
  | .done _ => (db, r)

/-- Two purchases and the database they share. -/
structure Race where
  db : Db
  first : Purchase
  second : Purchase
deriving DecidableEq, Repr

/-- An interleaving: at each entry the first (`false`) or the second (`true`)
purchase takes its next step. -/
def Race.run (s : Race) : List Bool → Race
  | [] => s
  | false :: rest =>
    Race.run { s with db := (s.first.step s.db).1, first := (s.first.step s.db).2 } rest
  | true :: rest =>
    Race.run { s with db := (s.second.step s.db).1, second := (s.second.step s.db).2 } rest

/-- The purchase went through: it is answered 200. -/
def Purchase.accepted (r : Purchase) : Bool :=
  match r.pc with
  | .done resp => resp.status == 200
  | _ => false

/-- What the accepted purchases of a race sold together. -/
def Race.soldTogether (s : Race) : Int :=
  (if s.first.accepted then s.first.quantity else 0) +
  (if s.second.accepted then s.second.quantity else 0)

/-- A new `buyTicket` request. -/
def Purchase.new (eventId userId : Nat) (quantity : Int) (mail : Option String) : Purchase :=
  ⟨eventId, userId, quantity, mail, .start⟩

/-- The serial interleaving: the first purchase runs to its answer, then the
second. -/
def serial : List Bool := [false, false, false, false, true, true, true, true]

/-- The interleaving in which both purchases load the event before either
decreases it. -/
def overlapping : List Bool := [false, true, false, false, true, true, false, true]

/-- Two new purchases of the same event, run under an interleaving. -/
def race (db : Db) (eventId : Nat) (u1 : Nat) (q1 : Int) (m1 : Option String)
    (u2 : Nat) (q2 : Int) (m2 : Option String) (schedule : List Bool) : Race :=
  Race.run ⟨db, Purchase.new eventId u1 q1 m1, Purchase.new eventId u2 q2 m2⟩ schedule

/-! ## Sample data -/

/-- An event with limit 10 of which 8 are sold. -/
def sampleEvent : Event :=
  { _id := 1, title := "Iftar", subTitle := none, description := "Community iftar",
    date := 1000, location := "Hall", organizer := 5, trending := false, photo := none,
    attendees := [], limit := 10, tickets := ⟨2, 8⟩ }

/-- An event with limit 10 of which none is sold. -/
def unsoldEvent : Event :=
  { _id := 2, title := "Halaqa", subTitle := some "Weekly", description := "Study circle",
    date := 2000, location := "Masjid", organizer := 5, trending := true, photo := none,
    attendees := [7], limit := 10, tickets := ⟨10, 0⟩ }

/-- A valid body for `POST /events` with limit 10 and a ticket sub-document of
100 remaining tickets and `sold` sold. -/
def looseBody (sold : Int) : CreateBody :=
  { title := "Bazaar", subTitle := none, description := "Charity bazaar", date := 3000,
    location := "Square", trending := none, photo := none, limit := 10,
    tickets := ⟨100, sold⟩ }

/-- A registered user. -/
def sampleUser : User := ⟨7, "Aisha", "aisha@example.org"⟩

/-- The database after `POST /events` with `looseBody sold` on a store without
events: one event, `_id` 1, limit 10, tickets 100 remaining and `sold` sold. -/
def looseDb (sold : Int) : Db :=
  (postEvent ⟨[], [sampleUser]⟩ noFaults 5 (looseBody sold)).2

/-- A database with the two events and the user. -/
def sampleDb : Db := ⟨[sampleEvent, unsoldEvent], [sampleUser]⟩

/-! ## Facts about the persistence layer -/

theorem findById_id {es : List Event} {id : Nat} {e : Event}
    (h : findById es id = some e) : e._id = id := by
  have := List.find?_some h
  simpa using this

theorem findById_mem {es : List Event} {id : Nat} {e : Event}
    (h : findById es id = some e) : e ∈ es :=
  List.mem_of_find?_eq_some h

theorem findById_saveEvent_same (es : List Event) (id : Nat) (e0 e : Event)
    (h : findById es id = some e0) (hid : e._id = id) :
    findById (saveEvent es e) id = some e := by
  induction es with
  | nil => simp [findById] at h
  | cons x xs ih =>
    unfold saveEvent
    by_cases hx : x._id = id
    · simp [findById, hx, hid]
    · have hx' : ¬ x._id = e._id := by rw [hid]; exact hx
      have h' : findById xs id = some e0 := by
        simpa [findById, List.find?_cons, hx] using h
      simpa [findById, List.find?_cons, hx, hx'] using ih h'

theorem findById_saveEvent_other (es : List Event) (id : Nat) (e : Event)
    (hid : e._id ≠ id) :
    findById (saveEvent es e) id = findById es id := by
  induction es with
  | nil => simp [saveEvent]
  | cons x xs ih =>
    unfold saveEvent
    by_cases hx : x._id = e._id
    · have hxi : ¬ x._id = id := by rw [hx]; exact hid
      simp [findById, List.find?_cons, hx, hxi, hid]
    · by_cases hxi : x._id = id
      · have hx2 : ¬ id = e._id := fun h => hid h.symm
        simp [findById, List.find?_cons, hx, hxi, hx2]
      · simpa [findById, List.find?_cons, hx, hxi] using ih

theorem saveEvent_length (es : List Event) (e : Event) :
    (saveEvent es e).length = es.length := by
  induction es with
  | nil => simp [saveEvent]
  | cons x xs ih =>
    unfold saveEvent
    split <;> simp [ih]

theorem mem_saveEvent {es : List Event} {e x : Event}
    (h : x ∈ saveEvent es e) : x = e ∨ x ∈ es := by
  induction es with
  | nil => simp [saveEvent] at h
  | cons y ys ih =>
    unfold saveEvent at h
    split at h
    · rcases List.mem_cons.mp h with h | h
      · exact Or.inl h
      · exact Or.inr (List.mem_cons_of_mem _ h)
    · rcases List.mem_cons.mp h with h | h
      · exact Or.inr (h ▸ List.mem_cons_self _ _)
      · rcases ih h with h | h
        · exact Or.inl h
        · exact Or.inr (List.mem_cons_of_mem _ h)

/-- A save of a changed copy of a stored event keeps, for every stored event,
whatever property the change keeps. -/
theorem findById_saveEvent_keeps (P : Event → Prop) (es : List Event) (id2 : Nat)
    (ev e2 : Event) (hfound : findById es id2 = some ev) (hid : e2._id = id2)
    (hP : P ev → P e2) (id : Nat) (e : Event) (he : findById es id = some e) (hok : P e) :
    ∃ e', findById (saveEvent es e2) id = some e' ∧ P e' := by
  by_cases h : id2 = id
  · subst h
    have hev : ev = e := by
      rw [hfound] at he
      exact Option.some.inj he
    exact ⟨e2, findById_saveEvent_same es id2 ev e2 hfound hid, hP (hev ▸ hok)⟩
  · refine ⟨e, ?_, hok⟩
    rw [findById_saveEvent_other es id e2 (by rw [hid]; exact h)]
    exact he

theorem findById_append_of_some (es tail : List Event) (id : Nat) (e : Event)
    (he : findById es id = some e) : findById (es ++ tail) id = some e := by
  simp [findById, List.find?_append] at he ⊢
  simp [he]

theorem deleteOne_splits (es : List Event) (id : Nat) (event : Event)
    (h : findById es id = some event) :
    ∃ l1 l2, es = l1 ++ event :: l2 ∧ deleteOne es event = l1 ++ l2 ∧
      ∀ x ∈ l1, x._id ≠ id := by
  have hid : event._id = id := findById_id h
  induction es with
  | nil => simp [findById] at h
  | cons x xs ih =>
    by_cases hx : x._id = id
    · have hxe : x = event := by
        simpa [findById, List.find?_cons, hx] using h
      subst hxe
      exact ⟨[], xs, rfl, by simp [deleteOne], by simp⟩
    · have h' : findById xs id = some event := by
        simpa [findById, List.find?_cons, hx] using h
      obtain ⟨l1, l2, h1, h2, h3⟩ := ih h'
      refine ⟨x :: l1, l2, by rw [h1]; rfl, ?_, ?_⟩
      · have hne : ¬ x._id = event._id := by rw [hid]; exact hx
        unfold deleteOne at h2 ⊢
        rw [List.eraseP_cons_of_neg (by simpa using hne), h2]
        rfl
      · intro y hy
        rcases List.mem_cons.mp hy with rfl | hy
        · exact hx
        · exact h3 y hy

/-- The store `buyTicket` leaves: the old one, or the old one with the event it
loaded replaced by what `decreaseTicketQuantity` made of it. -/
theorem buyTicket_store (db : Db) (f : Faults) (eventId userId : Nat) (quantity : Int)
    (mail : Option String) :
    (buyTicket db f eventId userId quantity mail).2 = db ∨
    ∃ ev, findById db.events eventId = some ev ∧ ¬ ev.tickets.quantity < quantity ∧
      (buyTicket db f eventId userId quantity mail).2 =
        { db with events := saveEvent db.events (decreaseTicketQuantity ev quantity) } := by
  unfold buyTicket
  split
  · exact Or.inl rfl
  · split
    · exact Or.inl rfl
    · rename_i ev hev
      split
      · exact Or.inl rfl
      · rename_i hg
        cases hs : f.save with
        | some m =>
          left
          simp only []
          repeat' split
          all_goals rfl
        | none =>
          right
          refine ⟨ev, hev, hg, ?_⟩
          simp only []
          repeat' split
          all_goals rfl

/-! ## Ticket purchase -/

/-- C1, as stated, fails: `POST /events` with limit 10 and a ticket
sub-document of 100 remaining, 0 sold stores that event, and a purchase of 50
tickets by an existing user is then accepted, answered 200, though
sold + quantity = 50 exceeds the limit 10. -/
theorem buyTicket_accepts_beyond_limit :
    (postEvent ⟨[], [sampleUser]⟩ noFaults 5 (looseBody 0)).1.status = 201 ∧
    (findById (looseDb 0).events 1).map (fun e => (e.limit, e.tickets.quantity, e.tickets.sold))
      = some (10, 100, 0) ∧
    findUserById (looseDb 0).users 7 = some sampleUser ∧
    ¬ ((0 : Int) + 50 ≤ 10) ∧
    (buyTicket (looseDb 0) noFaults 1 7 50 none).1 =
      ⟨200, .message "Ticket purchased and email sent"⟩ := by
  decide

/-- C1, amended: for an existing event and an existing user, `buyTicket`
refuses exactly when the remaining quantity `event.tickets.quantity` is less
than the quantity: then it answers 400 'Not enough tickets available' and the
database is unchanged; otherwise it stores what `decreaseTicketQuantity` makes
of the loaded event, with sold increased by the quantity, and answers 200
'Ticket purchased and email sent' when the mail goes out and 500 with the mail
error when it does not.  For an event whose remaining quantity is
`limit - sold` the purchase goes through exactly when
`sold + quantity <= limit`. -/
theorem buyTicket_accepts_iff_remaining (db : Db) (eventId userId : Nat) (quantity : Int)
    (mail : Option String) (event : Event) (user : User)
    (hev : findById db.events eventId = some event)
    (hus : findUserById db.users userId = some user) :
    (¬ event.tickets.quantity < quantity →
      (buyTicket db noFaults eventId userId quantity mail).1 =
          (match mail with
           | some m => ⟨500, .message m⟩
           | none => ⟨200, .message "Ticket purchased and email sent"⟩) ∧
      (buyTicket db noFaults eventId userId quantity mail).2 =
        { db with events := saveEvent db.events (decreaseTicketQuantity event quantity) } ∧
      findById (buyTicket db noFaults eventId userId quantity mail).2.events eventId =
        some (decreaseTicketQuantity event quantity) ∧
      (decreaseTicketQuantity event quantity).tickets.sold = event.tickets.sold + quantity ∧
      (decreaseTicketQuantity event quantity).limit = event.limit) ∧
    (event.tickets.quantity < quantity →
      buyTicket db noFaults eventId userId quantity mail =
        (⟨400, .message "Not enough tickets available"⟩, db)) ∧
    (event.tickets.quantity + event.tickets.sold = event.limit →
      (¬ event.tickets.quantity < quantity ↔ event.tickets.sold + quantity ≤ event.limit)) := by
  refine ⟨?_, ?_, ?_⟩
  · intro hq
    have hid : (decreaseTicketQuantity event quantity)._id = eventId :=
      findById_id (e := event) hev
    have hfind := findById_saveEvent_same db.events eventId event
      (decreaseTicketQuantity event quantity) hev hid
    cases mail with
    | none =>
      refine ⟨?_, ?_, ?_, rfl, rfl⟩
      · simp [buyTicket, noFaults, hev, hus, hq]
      · simp [buyTicket, noFaults, hev, hus, hq]
      · simpa [buyTicket, noFaults, hev, hus, hq] using hfind
    | some m =>
      refine ⟨?_, ?_, ?_, rfl, rfl⟩
      · simp [buyTicket, noFaults, hev, hus, hq]
      · simp [buyTicket, noFaults, hev, hus, hq]
      · simpa [buyTicket, noFaults, hev, hus, hq] using hfind
  · intro hq
    simp [buyTicket, noFaults, hev, hq]
  · intro hrep
    constructor <;> intro h <;> omega

/-- Witness for C1 amended and the spec's scenarios: with limit 10, 8 sold and 2
remaining, 3 tickets are refused and sold stays 8; 2 tickets go through and
sold is 10; then 1 ticket is refused. -/
theorem buyTicket_accepts_iff_remaining_witness :
    (buyTicket sampleDb noFaults 1 7 3 none =
        (⟨400, .message "Not enough tickets available"⟩, sampleDb)) ∧
    ((findById (buyTicket sampleDb noFaults 1 7 2 none).2.events 1).map
        (fun e => e.tickets.sold) = some 10) ∧
    ((buyTicket (buyTicket sampleDb noFaults 1 7 2 none).2 noFaults 1 7 1 none).1 =
        ⟨400, .message "Not enough tickets available"⟩) ∧
    ((buyTicket sampleDb noFaults 1 7 2 none).1 =
        ⟨200, .message "Ticket purchased and email sent"⟩ ∧
      (buyTicket sampleDb noFaults 1 7 2 none).2 =
        { sampleDb with
          events := saveEvent sampleDb.events (decreaseTicketQuantity sampleEvent 2) } ∧
      findById (buyTicket sampleDb noFaults 1 7 2 none).2.events 1 =
        some (decreaseTicketQuantity sampleEvent 2) ∧
      (decreaseTicketQuantity sampleEvent 2).tickets.sold = sampleEvent.tickets.sold + 2 ∧
      (decreaseTicketQuantity sampleEvent 2).limit = sampleEvent.limit) :=
  ⟨(buyTicket_accepts_iff_remaining sampleDb 1 7 3 none sampleEvent sampleUser
      (by decide) (by decide)).2.1 (by decide),
    by decide, by decide,
    (buyTicket_accepts_iff_remaining sampleDb 1 7 2 none sampleEvent sampleUser
      (by decide) (by decide)).1 (by decide)⟩

/-! ## Ticket inventory invariant -/

/-- C2, as stated, fails: the event stored by `POST /events` with limit 10 and
tickets 100 remaining, 8 sold satisfies `0 <= sold <= limit`; a purchase of 50
tickets passes the comparison of `buyTicket` with the remaining quantity and
leaves sold = 58, above the limit. -/
theorem inventory_broken_by_large_purchase :
    (findById (looseDb 8).events 1).map (fun e => (e.limit, e.tickets.quantity, e.tickets.sold))
      = some (10, 100, 8) ∧
    ((0 : Int) ≤ 8 ∧ (8 : Int) ≤ 10) ∧
    (buyTicket (looseDb 8) noFaults 1 7 50 none).1 =
      ⟨200, .message "Ticket purchased and email sent"⟩ ∧
    (findById (buyTicket (looseDb 8) noFaults 1 7 50 none).2.events 1).map
      (fun e => (e.limit, e.tickets.sold)) = some (10, 58) ∧
    ¬ ((58 : Int) ≤ 10) := by
  decide

/-- C2, amended: for every stored event with `sold <= limit` and
`sold + tickets.quantity <= limit`, every request to createEvent, updateEvent,
rsvpEvent or buyTicket with any integer quantity the handler lets through,
whatever the persistence outcome and the response, leaves that event stored
with the same limit and with both bounds still in force; `0 <= sold` is kept
too when the request is not a purchase of a negative quantity. -/
theorem inventory_within_limit_preserved (db : Db) (f : Faults) (r : Request) (id : Nat)
    (e : Event) (he : findById db.events id = some e) (hok : WithinLimit e) :
    ∃ e', findById (handle db f r).2.events id = some e' ∧
      ((WithinLimit e' ∧ e'.limit = e.limit) ∧
        (r.quantityNonneg → 0 ≤ e.tickets.sold → 0 ≤ e'.tickets.sold)) := by
  have hsame : ∃ e', findById db.events id = some e' ∧
      ((WithinLimit e' ∧ e'.limit = e.limit) ∧
        (r.quantityNonneg → 0 ≤ e.tickets.sold → 0 ≤ e'.tickets.sold)) :=
    ⟨e, he, ⟨hok, rfl⟩, fun _ h => h⟩
  have hcreate : ∀ userId body, ∃ e',
      findById (createEvent db f userId body).2.events id = some e' ∧
      ((WithinLimit e' ∧ e'.limit = e.limit) ∧
        (r.quantityNonneg → 0 ≤ e.tickets.sold → 0 ≤ e'.tickets.sold)) := by
    intro userId body
    simp only [createEvent]
    split
    · exact hsame
    · exact ⟨e, findById_append_of_some _ _ _ _ he, ⟨hok, rfl⟩, fun _ h => h⟩
  cases r with
  | create userId body => exact hcreate userId body
  | post userId body =>
    simp only [handle, postEvent]
    split
    · exact hcreate userId body
    · exact hsame
  | update id2 p =>
    simp only [handle, updateEvent]
    split
    · exact hsame
    · split
      · rename_i ev hev
        split
        · exact hsame
        · exact findById_saveEvent_keeps
            (fun x => (WithinLimit x ∧ x.limit = e.limit) ∧
              (Request.quantityNonneg (.update id2 p) → 0 ≤ e.tickets.sold →
                0 ≤ x.tickets.sold))
            db.events id2 ev (applyPatch ev p) hev (findById_id (e := ev) hev)
            (fun h => h) id e he ⟨⟨hok, rfl⟩, fun _ h => h⟩
      · exact hsame
  | rsvp id2 userId =>
    simp only [handle, rsvpEvent]
    split
    · exact hsame
    · split
      · rename_i ev hev
        split
        · split
          · exact hsame
          · exact findById_saveEvent_keeps
              (fun x => (WithinLimit x ∧ x.limit = e.limit) ∧
                (Request.quantityNonneg (.rsvp id2 userId) → 0 ≤ e.tickets.sold →
                  0 ≤ x.tickets.sold))
              db.events id2 ev { ev with attendees := ev.attendees ++ [userId] } hev
              (findById_id (e := ev) hev) (fun h => h) id e he ⟨⟨hok, rfl⟩, fun _ h => h⟩
        · exact hsame
      · exact hsame
  | buy eventId userId quantity mail =>
    rcases buyTicket_store db f eventId userId quantity mail with hdb | ⟨ev, hev, hg, hdb⟩
    · simp only [handle, hdb]
      exact hsame
    · simp only [handle, hdb]
      by_cases hid : eventId = id
      · subst hid
        have hee : ev = e := by
          rw [hev] at he
          exact Option.some.inj he
        subst hee
        refine ⟨decreaseTicketQuantity ev quantity,
          findById_saveEvent_same db.events eventId ev _ hev (findById_id (e := ev) hev),
          ⟨⟨?_, ?_⟩, rfl⟩, ?_⟩
        · show ev.tickets.sold + quantity ≤ ev.limit
          have := hok.2
          omega
        · show ev.tickets.sold + quantity + (ev.tickets.quantity - quantity) ≤ ev.limit
          have := hok.2
          omega
        · intro hq h0
          have hq0 : 0 ≤ quantity := hq
          show 0 ≤ ev.tickets.sold + quantity
          omega
      · refine ⟨e, ?_, ⟨hok, rfl⟩, fun _ h => h⟩
        have hne : (decreaseTicketQuantity ev quantity)._id ≠ id := by
          have h1 : (decreaseTicketQuantity ev quantity)._id = eventId :=
            findById_id (e := ev) hev
          rw [h1]
          exact hid
        rw [findById_saveEvent_other db.events id (decreaseTicketQuantity ev quantity) hne]
        exact he

/-- Witness for C2 amended: the purchase of 2 tickets of the event with 8 of 10
sold and 2 remaining leaves sold within the limit and not negative. -/
theorem inventory_within_limit_preserved_witness :
    (∃ e', findById (handle sampleDb noFaults (.buy 1 7 2 none)).2.events 1 = some e' ∧
      ((WithinLimit e' ∧ e'.limit = sampleEvent.limit) ∧
        (Request.quantityNonneg (.buy 1 7 2 none) → 0 ≤ sampleEvent.tickets.sold →
          0 ≤ e'.tickets.sold))) ∧
    (findById (handle sampleDb noFaults (.buy 1 7 2 none)).2.events 1).map
      (fun e => (e.limit, e.tickets.quantity, e.tickets.sold)) = some (10, 0, 10) :=
  ⟨inventory_within_limit_preserved sampleDb noFaults (.buy 1 7 2 none) 1 sampleEvent
    (by decide) (by decide), by decide⟩

/-! ## RSVP -/

/-- C3: for an existing event, `rsvpEvent` answers 400 'Already RSVPed' exactly
when the user's id is among the attendees, and then the database is
unchanged; otherwise it answers 'RSVP successful' and the stored event is the
old one with the user's id appended, where it occurs exactly once. -/
theorem rsvpEvent_already_iff_attending (db : Db) (id userId : Nat) (event : Event)
    (hev : findById db.events id = some event) :
    ((rsvpEvent db noFaults id userId).1 = ⟨400, .message "Already RSVPed"⟩ ↔
        userId ∈ event.attendees) ∧
    (userId ∈ event.attendees → (rsvpEvent db noFaults id userId).2 = db) ∧
    (userId ∉ event.attendees →
      (rsvpEvent db noFaults id userId).1 = ⟨200, .message "RSVP successful"⟩ ∧
      findById (rsvpEvent db noFaults id userId).2.events id =
        some { event with attendees := event.attendees ++ [userId] } ∧
      (event.attendees ++ [userId]).count userId = 1) := by
  have hsaved := findById_saveEvent_same db.events id event
    { event with attendees := event.attendees ++ [userId] } hev (findById_id (e := event) hev)
  by_cases hmem : userId ∈ event.attendees
  · simp [rsvpEvent, noFaults, hev, hmem]
  · refine ⟨?_, fun h => absurd h hmem, fun _ => ⟨?_, ?_, ?_⟩⟩
    · simp [rsvpEvent, noFaults, hev, hmem]
    · simp [rsvpEvent, noFaults, hev, hmem]
    · simpa [rsvpEvent, noFaults, hev, hmem] using hsaved
    · rw [List.count_append, List.count_eq_zero_of_not_mem hmem]
      simp

/-- Witness for C3 and the spec's scenario: the first rsvp of user 7 to the
event succeeds, the second is refused with 'Already RSVPed', and the event has
one attendee after both. -/
theorem rsvpEvent_already_iff_attending_witness :
    (rsvpEvent sampleDb noFaults 1 7).1 = ⟨200, .message "RSVP successful"⟩ ∧
    (rsvpEvent (rsvpEvent sampleDb noFaults 1 7).2 noFaults 1 7).1 =
      ⟨400, .message "Already RSVPed"⟩ ∧
    (findById (rsvpEvent (rsvpEvent sampleDb noFaults 1 7).2 noFaults 1 7).2.events 1).map
      (fun e => e.attendees.length) = some 1 ∧
    ((rsvpEvent sampleDb noFaults 2 7).1 = ⟨400, .message "Already RSVPed"⟩ ↔
        7 ∈ unsoldEvent.attendees) :=
  ⟨by decide, by decide, by decide,
    (rsvpEvent_already_iff_attending sampleDb 2 7 unsoldEvent (by decide)).1⟩

theorem handle_attendees_nodup (db : Db) (f : Faults) (r : Request)
    (h : ∀ e ∈ db.events, e.attendees.Nodup) :
    ∀ e ∈ (handle db f r).2.events, e.attendees.Nodup := by
  have hsave : ∀ e2 : Event, e2.attendees.Nodup →
      ∀ e ∈ saveEvent db.events e2, e.attendees.Nodup := by
    intro e2 h2 e he
    rcases mem_saveEvent he with rfl | hm
    · exact h2
    · exact h e hm
  have hcreate : ∀ userId body,
      ∀ e ∈ (createEvent db f userId body).2.events, e.attendees.Nodup := by
    intro userId body
    simp only [createEvent]
    split
    · exact h
    · intro e he
      rcases List.mem_append.mp he with hm | hm
      · exact h e hm
      · rw [List.mem_singleton.mp hm]
        exact List.nodup_nil
  cases r with
  | create userId body => exact hcreate userId body
  | post userId body =>
    simp only [handle, postEvent]
    split
    · exact hcreate userId body
    · exact h
  | update id p =>
    simp only [handle, updateEvent]
    split
    · exact h
    · split
      · rename_i ev hev
        split
        · exact h
        · exact hsave (applyPatch ev p) (h ev (findById_mem hev))
      · exact h
  | rsvp id userId =>
    simp only [handle, rsvpEvent]
    split
    · exact h
    · split
      · rename_i ev hev
        split
        · rename_i hnot
          split
          · exact h
          · refine hsave { ev with attendees := ev.attendees ++ [userId] } ?_
            have hmem : userId ∉ ev.attendees := by simpa using hnot
            show (ev.attendees ++ [userId]).Nodup
            rw [List.nodup_append]
            refine ⟨h ev (findById_mem hev), List.nodup_singleton _, ?_⟩
            intro a ha hb
            rw [List.mem_singleton.mp hb] at ha
            exact hmem ha
        · exact h
      · exact h
  | buy eventId userId quantity mail =>
    rcases buyTicket_store db f eventId userId quantity mail with hdb | ⟨ev, hev, _, hdb⟩
    · simp only [handle, hdb]
      exact h
    · simp only [handle, hdb]
      exact hsave (decreaseTicketQuantity ev quantity) (h ev (findById_mem hev))

/-- C4: the event `createEvent` stores has no attendee, and when no stored
event lists a user twice, no stored event does after any sequence of
createEvent, rsvpEvent, updateEvent and buyTicket requests handled one after
the other, whatever their users, inputs and persistence outcomes. -/
theorem attendees_nodup_invariant (db : Db) (rs : List (Faults × Request)) :
    (∀ f userId body e, (createEvent db f userId body).1.body = .event e →
        e.attendees = [] ∧ e ∈ (createEvent db f userId body).2.events) ∧
    ((∀ e ∈ db.events, e.attendees.Nodup) → ∀ e ∈ (run db rs).events, e.attendees.Nodup) := by
  constructor
  · intro f userId body e
    simp only [createEvent]
    split
    · intro h
      simp at h
    · intro h
      simp only [Body.event.injEq] at h
      subst h
      simp
  · induction rs generalizing db with
    | nil => intro h; exact h
    | cons fr rest ih =>
      intro h
      obtain ⟨f, r⟩ := fr
      exact ih (handle db f r).2 (handle_attendees_nodup db f r h)

/-- Witness for C4: after two rsvps of the same user, a purchase and an update,
no event of the sample database lists a user twice, and event 1 lists user 7
once. -/
theorem attendees_nodup_invariant_witness :
    (∀ e ∈ (run sampleDb [(noFaults, .rsvp 1 7), (noFaults, .rsvp 1 7),
        (noFaults, .buy 1 7 1 none), (noFaults, .rsvp 2 7),
        (noFaults, .update 1 ⟨.value "New", .absent, .absent, .absent, .absent⟩)]).events,
      e.attendees.Nodup) ∧
    (findById (run sampleDb [(noFaults, .rsvp 1 7), (noFaults, .rsvp 1 7),
        (noFaults, .buy 1 7 1 none), (noFaults, .rsvp 2 7),
        (noFaults, .update 1 ⟨.value "New", .absent, .absent, .absent, .absent⟩)]).events 1).map
      (fun e => e.attendees) = some [7] :=
  ⟨(attendees_nodup_invariant sampleDb _).2 (by decide), by decide⟩

/-! ## Upcoming and past events -/

/-- C5: with the same instant `now` in both handlers, `upcomingEvents` returns
exactly the stored events with `date > now`, `pastEvents` exactly those with
`date <= now`; no event is in both, and the two results together are the
stored events (an event dated `now` is past, not upcoming). -/
theorem upcoming_past_partition (db : Db) (now : Int) :
    ∃ up past,
      upcomingEvents db noFaults now = ⟨200, .events up⟩ ∧
      pastEvents db noFaults now = ⟨200, .events past⟩ ∧
      (∀ e, e ∈ up ↔ e ∈ db.events ∧ e.date > now) ∧
      (∀ e, e ∈ past ↔ e ∈ db.events ∧ e.date ≤ now) ∧
      (∀ e, ¬ (e ∈ up ∧ e ∈ past)) ∧
      (∀ e ∈ db.events, e ∈ up ∨ e ∈ past) ∧
      (∀ e ∈ db.events, e.date = now → e ∈ past ∧ e ∉ up) ∧
      (up ++ past).Perm db.events := by
  refine ⟨db.events.filter (fun e => decide (e.date > now)),
    db.events.filter (fun e => decide (e.date ≤ now)), rfl, rfl, ?_, ?_, ?_, ?_, ?_, ?_⟩
  · intro e
    simp [List.mem_filter]
  · intro e
    simp [List.mem_filter]
  · intro e
    simp only [List.mem_filter, decide_eq_true_eq]
    rintro ⟨⟨_, h1⟩, ⟨_, h2⟩⟩
    omega
  · intro e he
    simp only [List.mem_filter, decide_eq_true_eq]
    rcases lt_or_le now e.date with h | h
    · exact Or.inl ⟨he, h⟩
    · exact Or.inr ⟨he, h⟩
  · intro e he hd
    simp only [List.mem_filter, decide_eq_true_eq]
    exact ⟨⟨he, by omega⟩, fun h => by omega⟩
  · have hnot : (fun e : Event => decide (e.date ≤ now)) =
        (fun e : Event => !decide (e.date > now)) := by
      funext e
      by_cases h : e.date > now
      · have h2 : ¬ e.date ≤ now := by omega
        simp [h, h2]
      · have h2 : e.date ≤ now := by omega
        simp [h, h2]
    rw [hnot]
    exact List.filter_append_perm _ _

/-! ## Partial update -/

/-- C6, as stated, fails: a patch with the title "New" and a truthy date the
schema cannot cast is answered 400 and stores nothing, so the title of the
event stays as it was. -/
theorem updateEvent_rejects_invalid_value :
    findById sampleDb.events 1 = some sampleEvent ∧
    (updateEvent sampleDb noFaults 1
        ⟨.value "New", .absent, .absent, .invalid "Cast to date failed", .absent⟩).1.status
      = 400 ∧
    (updateEvent sampleDb noFaults 1
        ⟨.value "New", .absent, .absent, .invalid "Cast to date failed", .absent⟩).2
      = sampleDb ∧
    (findById (updateEvent sampleDb noFaults 1
        ⟨.value "New", .absent, .absent, .invalid "Cast to date failed", .absent⟩).2.events
        1).map (fun e => e.title) = some "Iftar" := by
  decide

/-- C6, amended: for an existing event and a patch whose truthy values the
schema takes, `updateEvent` answers with and stores the event in which each of
title, subTitle, description, date and location is the patch's value when that
is present and truthy and the existing value when it is absent or falsy, every
other field of the event is as before, and no other event or user changes;
for a patch with a truthy value the schema cannot cast the answer is status
400 and the database is unchanged. -/
theorem updateEvent_patches_fields (db : Db) (id : Nat) (p : Patch) (event : Event)
    (hev : findById db.events id = some event) :
    (patchErrors p = [] →
      ∃ e', (updateEvent db noFaults id p).1 = ⟨200, .event e'⟩ ∧
        findById (updateEvent db noFaults id p).2.events id = some e' ∧
        PatchedField p.title event.title e'.title ∧
        PatchedOptField p.subTitle event.subTitle e'.subTitle ∧
        PatchedField p.description event.description e'.description ∧
        PatchedField p.date event.date e'.date ∧
        PatchedField p.location event.location e'.location ∧
        (e'._id = event._id ∧ e'.organizer = event.organizer ∧
          e'.trending = event.trending ∧ e'.photo = event.photo ∧
          e'.attendees = event.attendees ∧ e'.limit = event.limit ∧
          e'.tickets = event.tickets) ∧
        (∀ j, j ≠ id → findById (updateEvent db noFaults id p).2.events j =
            findById db.events j) ∧
        (updateEvent db noFaults id p).2.users = db.users) ∧
    (patchErrors p ≠ [] →
      (updateEvent db noFaults id p).1.status = 400 ∧
      (updateEvent db noFaults id p).2 = db) := by
  have hfield : ∀ {α : Type} (a : BodyValue α) (b : α), PatchedField a b (a.orElse b) := by
    intro α a b
    constructor
    · intro v hv
      simp [BodyValue.orElse, hv]
    · rintro (h | h) <;> simp [BodyValue.orElse, h]
  have hopt : ∀ {α : Type} (a : BodyValue α) (b : Option α),
      PatchedOptField a b (a.orElseOpt b) := by
    intro α a b
    constructor
    · intro v hv
      simp [BodyValue.orElseOpt, hv]
    · rintro (h | h) <;> simp [BodyValue.orElseOpt, h]
  have hid : (applyPatch event p)._id = id := findById_id (e := event) hev
  constructor
  · intro hok
    have hsave : updateSaveError noFaults p = none := by
      simp [updateSaveError, hok, noFaults]
    have hres : updateEvent db noFaults id p =
        (⟨200, .event (applyPatch event p)⟩,
          { db with events := saveEvent db.events (applyPatch event p) }) := by
      unfold updateEvent
      simp only [show noFaults.find = none from rfl, hev, hsave]
    rw [hres]
    refine ⟨applyPatch event p, rfl, ?_, hfield _ _, hopt _ _, hfield _ _, hfield _ _,
      hfield _ _, ⟨rfl, rfl, rfl, rfl, rfl, rfl, rfl⟩, ?_, rfl⟩
    · exact findById_saveEvent_same db.events id event (applyPatch event p) hev hid
    · intro j hj
      exact findById_saveEvent_other db.events j (applyPatch event p)
        (by rw [hid]; exact fun h => hj h.symm)
  · intro hbad
    cases hp : patchErrors p with
    | nil => exact absurd hp hbad
    | cons e es =>
      have hsave : updateSaveError noFaults p =
          some ("Event validation failed: " ++ ", ".intercalate (e :: es)) := by
        simp [updateSaveError, hp]
      unfold updateEvent
      simp only [show noFaults.find = none from rfl, hev, hsave]
      exact ⟨trivial, trivial⟩

/-- Witness for C6 amended and the spec's scenario: the patch with title "New"
alone changes the title of the sample event and nothing else; a date sent as
the string of instant 0 is stored. -/
theorem updateEvent_patches_fields_witness :
    (updateEvent sampleDb noFaults 1 ⟨.value "New", .absent, .absent, .absent, .absent⟩).1 =
      ⟨200, .event { sampleEvent with title := "New" }⟩ ∧
    (updateEvent sampleDb noFaults 1 ⟨.absent, .falsy, .absent, .value 0, .absent⟩).1 =
      ⟨200, .event { sampleEvent with date := 0 }⟩ ∧
    ∃ e', (updateEvent sampleDb noFaults 1
          ⟨.value "New", .absent, .absent, .absent, .absent⟩).1 = ⟨200, .event e'⟩ ∧
        e'.title = "New" ∧ e'.description = sampleEvent.description := by
  refine ⟨by decide, by decide, ?_⟩
  obtain ⟨e', h1, _, ht, _, hd, _⟩ :=
    (updateEvent_patches_fields sampleDb 1 ⟨.value "New", .absent, .absent, .absent, .absent⟩
      sampleEvent (by decide)).1 (by decide)
  exact ⟨e', h1, ht.1 "New" rfl, hd.2 (Or.inl rfl)⟩

/-! ## Confirmation mail -/

/-- C7, as stated, fails: the same accepted purchase is answered 200 when the
mail goes out and 500 when `sendMail` calls back with an error. -/
theorem mail_failure_changes_status :
    findById sampleDb.events 1 = some sampleEvent ∧
    ¬ sampleEvent.tickets.quantity < 2 ∧
    findUserById sampleDb.users 7 = some sampleUser ∧
    (buyTicket sampleDb noFaults 1 7 2 none).1 =
      ⟨200, .message "Ticket purchased and email sent"⟩ ∧
    (buyTicket sampleDb noFaults 1 7 2 (some "connect ECONNREFUSED")).1 =
      ⟨500, .message "connect ECONNREFUSED"⟩ := by
  decide

/-- C7, amended: for every purchase `buyTicket` has accepted (event found,
enough tickets, user found), a mail failure does not reverse the purchase, the
database with the decreased inventory is the same with and without the mail
error, but it changes the response: status 500 with the mail error's message
instead of status 200 'Ticket purchased and email sent'. -/
theorem mail_failure_keeps_purchase (db : Db) (eventId userId : Nat) (quantity : Int)
    (m : String) (event : Event) (user : User)
    (hev : findById db.events eventId = some event)
    (henough : ¬ event.tickets.quantity < quantity)
    (hus : findUserById db.users userId = some user) :
    (buyTicket db noFaults eventId userId quantity (some m)).1 = ⟨500, .message m⟩ ∧
    (buyTicket db noFaults eventId userId quantity none).1 =
      ⟨200, .message "Ticket purchased and email sent"⟩ ∧
    (buyTicket db noFaults eventId userId quantity (some m)).2 =
      (buyTicket db noFaults eventId userId quantity none).2 ∧
    findById (buyTicket db noFaults eventId userId quantity (some m)).2.events eventId =
      some (decreaseTicketQuantity event quantity) := by
  have hid : (decreaseTicketQuantity event quantity)._id = eventId :=
    findById_id (e := event) hev
  have hfind := findById_saveEvent_same db.events eventId event
    (decreaseTicketQuantity event quantity) hev hid
  refine ⟨?_, ?_, ?_, ?_⟩
  · simp [buyTicket, noFaults, hev, hus, henough]
  · simp [buyTicket, noFaults, hev, hus, henough]
  · simp [buyTicket, noFaults, hev, hus, henough]
  · simpa [buyTicket, noFaults, hev, hus, henough] using hfind

/-- Witness for C7 amended: the purchase of 2 tickets of the sample event with
a failing mail is answered 500 and still stores sold = 10. -/
theorem mail_failure_keeps_purchase_witness :
    (buyTicket sampleDb noFaults 1 7 2 (some "connect ECONNREFUSED")).1 =
      ⟨500, .message "connect ECONNREFUSED"⟩ ∧
    (buyTicket sampleDb noFaults 1 7 2 none).1 =
      ⟨200, .message "Ticket purchased and email sent"⟩ ∧
    (buyTicket sampleDb noFaults 1 7 2 (some "connect ECONNREFUSED")).2 =
      (buyTicket sampleDb noFaults 1 7 2 none).2 ∧
    findById (buyTicket sampleDb noFaults 1 7 2 (some "connect ECONNREFUSED")).2.events 1 =
      some (decreaseTicketQuantity sampleEvent 2) :=
  mail_failure_keeps_purchase sampleDb 1 7 2 "connect ECONNREFUSED" sampleEvent sampleUser
    (by decide) (by decide) (by decide)

/-! ## Error responses -/

/-- C8, as stated, fails: 'Already RSVPed' and 'Not enough tickets available'
are both answered with status 400; 'User not found' is answered with the
status 404 of 'Event not found'; an error thrown in `rsvpEvent` is answered
with the status 400 of 'Already RSVPed'. -/
theorem error_statuses_collide :
    (rsvpEvent sampleDb noFaults 2 7).1 = ⟨400, .message "Already RSVPed"⟩ ∧
    (buyTicket sampleDb noFaults 1 7 3 none).1 =
      ⟨400, .message "Not enough tickets available"⟩ ∧
    (rsvpEvent sampleDb noFaults 2 7).1.status =
      (buyTicket sampleDb noFaults 1 7 3 none).1.status ∧
    (buyTicket sampleDb noFaults 9 7 1 none).1 = ⟨404, .message "Event not found"⟩ ∧
    (buyTicket sampleDb noFaults 1 99 1 none).1 = ⟨404, .message "User not found"⟩ ∧
    (rsvpEvent sampleDb ⟨none, some "write conflict", none⟩ 1 7).1 =
      ⟨400, .message "write conflict"⟩ := by
  decide

/-- C8, amended: in `rsvpEvent` and `buyTicket` a missing event is answered 404
'Event not found', a purchase beyond the remaining quantity 400 'Not enough
tickets available', a repeated rsvp 400 'Already RSVPed' and a missing user
404 'User not found'.  The status of 'Event not found' differs from the status
of the other two kinds; these two share status 400; the four answers differ
pairwise as (status, message) pairs. -/
theorem error_responses_distinct_by_message (db : Db) (f : Faults) (id userId : Nat)
    (quantity : Int) (mail : Option String) (hf : f.find = none) :
    (findById db.events id = none →
      (rsvpEvent db f id userId).1 = ⟨404, .message "Event not found"⟩ ∧
      (buyTicket db f id userId quantity mail).1 = ⟨404, .message "Event not found"⟩) ∧
    (∀ event, findById db.events id = some event →
      (userId ∈ event.attendees →
        (rsvpEvent db f id userId).1 = ⟨400, .message "Already RSVPed"⟩) ∧
      (event.tickets.quantity < quantity →
        (buyTicket db f id userId quantity mail).1 =
          ⟨400, .message "Not enough tickets available"⟩) ∧
      (¬ event.tickets.quantity < quantity → f.user = none →
        findUserById db.users userId = none →
        (buyTicket db f id userId quantity mail).1 = ⟨404, .message "User not found"⟩)) ∧
    ((404 : Nat) ≠ 400 ∧
      Body.message "Event not found" ≠ Body.message "Not enough tickets available" ∧
      Body.message "Event not found" ≠ Body.message "Already RSVPed" ∧
      Body.message "Not enough tickets available" ≠ Body.message "Already RSVPed" ∧
      Body.message "User not found" ≠ Body.message "Event not found" ∧
      Body.message "User not found" ≠ Body.message "Not enough tickets available" ∧
      Body.message "User not found" ≠ Body.message "Already RSVPed") := by
  refine ⟨?_, ?_, by decide⟩
  · intro hnone
    simp [rsvpEvent, buyTicket, hf, hnone]
  · intro event hev
    refine ⟨?_, ?_, ?_⟩
    · intro hmem
      simp [rsvpEvent, hf, hev, hmem]
    · intro hlt
      simp [buyTicket, hf, hev, hlt]
    · intro hge hu hnone
      simp [buyTicket, hf, hev, hge, hu, hnone]

/-- Witness for C8 amended, on the sample database: no event 9; user 7 already
attends event 2, of which 10 tickets remain. -/
theorem error_responses_distinct_by_message_witness :
    ((rsvpEvent sampleDb noFaults 9 7).1 = ⟨404, .message "Event not found"⟩ ∧
      (buyTicket sampleDb noFaults 9 7 11 none).1 = ⟨404, .message "Event not found"⟩) ∧
    (rsvpEvent sampleDb noFaults 2 7).1 = ⟨400, .message "Already RSVPed"⟩ ∧
    (buyTicket sampleDb noFaults 2 7 11 none).1 =
      ⟨400, .message "Not enough tickets available"⟩ :=
  ⟨(error_responses_distinct_by_message sampleDb noFaults 9 7 11 none rfl).1 (by decide),
    ((error_responses_distinct_by_message sampleDb noFaults 2 7 11 none rfl).2.1
      unsoldEvent (by decide)).1 (by decide),
    ((error_responses_distinct_by_message sampleDb noFaults 2 7 11 none rfl).2.1
      unsoldEvent (by decide)).2.1 (by decide)⟩

/-! ## Missing events and deletion -/

/-- C9, as stated, fails: the store holds no event with the malformed id "abc",
yet `getEvent` answers 400 and `buyTicket` 500, each with the CastError of
`Event.findById`, not 404 'Event not found'. -/
theorem malformed_id_not_404 :
    storeHolds sampleDb (.malformed "abc") = false ∧
    getEventAt sampleDb noFaults (.malformed "abc") =
      (⟨400, .message (castError "abc")⟩, sampleDb) ∧
    buyTicketAt sampleDb noFaults (.malformed "abc") 7 1 none =
      (⟨500, .message (castError "abc")⟩, sampleDb) ∧
    (getEventAt sampleDb noFaults (.malformed "abc")).1 ≠
      ⟨404, .message "Event not found"⟩ ∧
    (buyTicketAt sampleDb noFaults (.malformed "abc") 7 1 none).1 ≠
      ⟨404, .message "Event not found"⟩ := by
  decide

/-- C9, amended: when the store holds no event with the id of the request, each
of getEvent, updateEvent, deleteEvent, rsvpEvent, buyTicket and getTicketsSold
leaves the database unchanged; it answers 404 'Event not found' when the id is
well-formed and `Event.findById` resolves, and when the id is malformed or the
lookup rejects, the `catch` block answers with the error's message, status 400
in getEvent, updateEvent, deleteEvent and rsvpEvent and status 500 in buyTicket
and getTicketsSold.  deleteEvent on the id of a stored event answers
'Event removed' and removes that event, keeping every other event, in order,
and every user. -/
theorem missing_event_answers_and_delete_exact (db : Db) (f : Faults) :
    (∀ param, storeHolds db param = false →
      ((getEventAt db f param).2 = db ∧
        (∀ p, (updateEventAt db f param p).2 = db) ∧
        (deleteEventAt db f param).2 = db ∧
        (∀ userId, (rsvpEventAt db f param userId).2 = db) ∧
        (∀ userId quantity mail, (buyTicketAt db f param userId quantity mail).2 = db) ∧
        (getTicketsSoldAt db f param).2 = db) ∧
      (∀ id, param = .objectId id → f.find = none →
        (getEventAt db f param).1 = ⟨404, .message "Event not found"⟩ ∧
        (∀ p, (updateEventAt db f param p).1 = ⟨404, .message "Event not found"⟩) ∧
        (deleteEventAt db f param).1 = ⟨404, .message "Event not found"⟩ ∧
        (∀ userId, (rsvpEventAt db f param userId).1 =
          ⟨404, .message "Event not found"⟩) ∧
        (∀ userId quantity mail, (buyTicketAt db f param userId quantity mail).1 =
          ⟨404, .message "Event not found"⟩) ∧
        (getTicketsSoldAt db f param).1 = ⟨404, .message "Event not found"⟩) ∧
      (∀ raw, param = .malformed raw →
        (getEventAt db f param).1 = ⟨400, .message (castError raw)⟩ ∧
        (∀ p, (updateEventAt db f param p).1 = ⟨400, .message (castError raw)⟩) ∧
        (deleteEventAt db f param).1 = ⟨400, .message (castError raw)⟩ ∧
        (∀ userId, (rsvpEventAt db f param userId).1 =
          ⟨400, .message (castError raw)⟩) ∧
        (∀ userId quantity mail, (buyTicketAt db f param userId quantity mail).1 =
          ⟨500, .message (castError raw)⟩) ∧
        (getTicketsSoldAt db f param).1 = ⟨500, .message (castError raw)⟩) ∧
      (∀ id m, param = .objectId id → f.find = some m →
        (getEventAt db f param).1 = ⟨400, .message m⟩ ∧
        (∀ p, (updateEventAt db f param p).1 = ⟨400, .message m⟩) ∧
        (deleteEventAt db f param).1 = ⟨400, .message m⟩ ∧
        (∀ userId, (rsvpEventAt db f param userId).1 = ⟨400, .message m⟩) ∧
        (∀ userId quantity mail, (buyTicketAt db f param userId quantity mail).1 =
          ⟨500, .message m⟩) ∧
        (getTicketsSoldAt db f param).1 = ⟨500, .message m⟩)) ∧
    (∀ id event, findById db.events id = some event → f.find = none → f.save = none →
      (deleteEventAt db f (.objectId id)).1 = ⟨200, .message "Event removed"⟩ ∧
      (deleteEventAt db f (.objectId id)).2.users = db.users ∧
      ∃ l1 l2, db.events = l1 ++ event :: l2 ∧
        (deleteEventAt db f (.objectId id)).2.events = l1 ++ l2 ∧ ∀ x ∈ l1, x._id ≠ id) := by
  constructor
  · intro param hno
    cases param with
    | malformed raw =>
      refine ⟨by simp [getEventAt, updateEventAt, deleteEventAt, rsvpEventAt, buyTicketAt,
        getTicketsSoldAt], ?_, ?_, ?_⟩
      · intro id h
        cases h
      · intro raw2 h
        cases h
        simp [getEventAt, updateEventAt, deleteEventAt, rsvpEventAt, buyTicketAt,
          getTicketsSoldAt]
      · intro id m h
        cases h
    | objectId id =>
      have hnone : findById db.events id = none := by
        cases h : findById db.events id with
        | none => rfl
        | some e => simp [storeHolds, h] at hno
      refine ⟨?_, ?_, ?_, ?_⟩
      · cases hf : f.find <;>
          simp [getEventAt, updateEventAt, deleteEventAt, rsvpEventAt, buyTicketAt,
            getTicketsSoldAt, getEvent, updateEvent, deleteEvent, rsvpEvent, buyTicket,
            getTicketsSold, hf, hnone]
      · intro id2 hid hf
        simp [getEventAt, updateEventAt, deleteEventAt, rsvpEventAt, buyTicketAt,
          getTicketsSoldAt, getEvent, updateEvent, deleteEvent, rsvpEvent, buyTicket,
          getTicketsSold, hf, hnone]
      · intro raw h
        cases h
      · intro id2 m _ hf
        simp [getEventAt, updateEventAt, deleteEventAt, rsvpEventAt, buyTicketAt,
          getTicketsSoldAt, getEvent, updateEvent, deleteEvent, rsvpEvent, buyTicket,
          getTicketsSold, hf]
  · intro id event hev hf hs
    obtain ⟨l1, l2, h1, h2, h3⟩ := deleteOne_splits db.events id event hev
    refine ⟨?_, ?_, l1, l2, h1, ?_, h3⟩
    · simp [deleteEventAt, deleteEvent, hf, hs, hev]
    · simp [deleteEventAt, deleteEvent, hf, hs, hev]
    · simpa [deleteEventAt, deleteEvent, hf, hs, hev] using h2

/-- Witness for C9 amended: the sample database holds no event 9, which every
handler answers with 404, and deleting event 1 leaves exactly the other
event. -/
theorem missing_event_answers_and_delete_exact_witness :
    ((getEventAt sampleDb noFaults (.objectId 9)).1 = ⟨404, .message "Event not found"⟩ ∧
      (∀ p, (updateEventAt sampleDb noFaults (.objectId 9) p).1 =
        ⟨404, .message "Event not found"⟩) ∧
      (deleteEventAt sampleDb noFaults (.objectId 9)).1 =
        ⟨404, .message "Event not found"⟩ ∧
      (∀ userId, (rsvpEventAt sampleDb noFaults (.objectId 9) userId).1 =
        ⟨404, .message "Event not found"⟩) ∧
      (∀ userId quantity mail,
        (buyTicketAt sampleDb noFaults (.objectId 9) userId quantity mail).1 =
          ⟨404, .message "Event not found"⟩) ∧
      (getTicketsSoldAt sampleDb noFaults (.objectId 9)).1 =
        ⟨404, .message "Event not found"⟩) ∧
    ((deleteEventAt sampleDb noFaults (.objectId 1)).1 = ⟨200, .message "Event removed"⟩ ∧
      (deleteEventAt sampleDb noFaults (.objectId 1)).2.users = sampleDb.users ∧
      ∃ l1 l2, sampleDb.events = l1 ++ sampleEvent :: l2 ∧
        (deleteEventAt sampleDb noFaults (.objectId 1)).2.events = l1 ++ l2 ∧
        ∀ x ∈ l1, x._id ≠ 1) ∧
    deleteEventAt sampleDb noFaults (.objectId 1) = (⟨200, .message "Event removed"⟩,
      ⟨[unsoldEvent], [sampleUser]⟩) :=
  ⟨((missing_event_answers_and_delete_exact sampleDb noFaults).1 (.objectId 9)
      (by decide)).2.1 9 rfl rfl,
    (missing_event_answers_and_delete_exact sampleDb noFaults).2 1 sampleEvent
      (by decide) rfl rfl,
    by decide⟩

/-! ## Purchases in flight -/

/-- The four steps of a purchase, taken with no other request in between, are
`buyTicket`. -/
theorem Purchase.four_steps_eq_buyTicket (db : Db) (eventId userId : Nat) (quantity : Int)
    (mail : Option String) (r : Purchase)
    (hr : r = Purchase.new eventId userId quantity mail) :
    ((((r.step db).2.step (r.step db).1).2.step
        ((r.step db).2.step (r.step db).1).1).2.step
      ((((r.step db).2.step (r.step db).1).2.step
        ((r.step db).2.step (r.step db).1).1).1)) =
      ((buyTicket db noFaults eventId userId quantity mail).2,
        { r with pc := .done (buyTicket db noFaults eventId userId quantity mail).1 }) := by
  subst hr
  cases hev : findById db.events eventId with
  | none => simp [Purchase.step, Purchase.new, buyTicket, noFaults, hev]
  | some event =>
    by_cases hlt : event.tickets.quantity < quantity
    · simp [Purchase.step, Purchase.new, buyTicket, noFaults, hev, hlt]
    · cases hus : findUserById db.users userId with
      | none => simp [Purchase.step, Purchase.new, buyTicket, noFaults, hev, hlt, hus]
      | some user =>
        cases mail with
        | none => simp [Purchase.step, Purchase.new, buyTicket, noFaults, hev, hlt, hus]
        | some m => simp [Purchase.step, Purchase.new, buyTicket, noFaults, hev, hlt, hus]

theorem race_serial_eq (db : Db) (eventId u1 : Nat) (q1 : Int) (m1 : Option String)
    (u2 : Nat) (q2 : Int) (m2 : Option String) :
    race db eventId u1 q1 m1 u2 q2 m2 serial =
      ⟨(buyTicket (buyTicket db noFaults eventId u1 q1 m1).2 noFaults eventId u2 q2 m2).2,
        { Purchase.new eventId u1 q1 m1 with
          pc := .done (buyTicket db noFaults eventId u1 q1 m1).1 },
        { Purchase.new eventId u2 q2 m2 with
          pc := .done (buyTicket (buyTicket db noFaults eventId u1 q1 m1).2 noFaults
            eventId u2 q2 m2).1 }⟩ := by
  have h1 := Purchase.four_steps_eq_buyTicket db eventId u1 q1 m1 _ rfl
  have h2 := Purchase.four_steps_eq_buyTicket (buyTicket db noFaults eventId u1 q1 m1).2
    eventId u2 q2 m2 _ rfl
  simp only [race, serial, Race.run]
  rw [h1]
  simp only []
  rw [h2]

/-- A purchase of a non-negative quantity keeps the inventory of the event
within its limit, never lowers sold, and raises sold by the quantity when it
is answered 200. -/
theorem buyTicket_inventory_step (db : Db) (eventId userId : Nat) (quantity : Int)
    (mail : Option String) (event : Event)
    (hev : findById db.events eventId = some event) (hok : InventoryOk event)
    (hq : 0 ≤ quantity) :
    ∃ e', findById (buyTicket db noFaults eventId userId quantity mail).2.events eventId
        = some e' ∧
      InventoryOk e' ∧ e'.limit = event.limit ∧ event.tickets.sold ≤ e'.tickets.sold ∧
      ((buyTicket db noFaults eventId userId quantity mail).1.status = 200 →
        event.tickets.sold + quantity ≤ e'.tickets.sold) := by
  obtain ⟨h0, h1, h2⟩ := hok
  by_cases hlt : event.tickets.quantity < quantity
  · refine ⟨event, ?_, ⟨h0, h1, h2⟩, rfl, le_refl _, ?_⟩
    · simp [buyTicket, noFaults, hev, hlt]
    · simp [buyTicket, noFaults, hev, hlt]
  · have hid : (decreaseTicketQuantity event quantity)._id = eventId :=
      findById_id (e := event) hev
    have hfind := findById_saveEvent_same db.events eventId event
      (decreaseTicketQuantity event quantity) hev hid
    have hdb : (buyTicket db noFaults eventId userId quantity mail).2.events =
        saveEvent db.events (decreaseTicketQuantity event quantity) := by
      simp only [buyTicket, noFaults, hev, hlt, if_false]
      split
      · rfl
      · split <;> rfl
    refine ⟨decreaseTicketQuantity event quantity, by rw [hdb]; exact hfind, ⟨?_, ?_, ?_⟩,
      rfl, ?_, fun _ => ?_⟩
    · show 0 ≤ event.tickets.sold + quantity
      omega
    · show event.tickets.sold + quantity ≤ event.limit
      omega
    · show event.tickets.quantity - quantity + (event.tickets.sold + quantity) = event.limit
      omega
    · show event.tickets.sold ≤ event.tickets.sold + quantity
      omega
    · exact le_refl _

/-- C10, as stated, fails: when both purchases of 2 tickets load the event with
8 of 10 sold before either decreases it, both are answered 200, so 12 tickets
are sold of 10; handled one after the other, the second is refused. -/
theorem overlapping_purchases_oversell :
    (race sampleDb 1 7 2 none 7 2 none overlapping).first.pc =
      .done ⟨200, .message "Ticket purchased and email sent"⟩ ∧
    (race sampleDb 1 7 2 none 7 2 none overlapping).second.pc =
      .done ⟨200, .message "Ticket purchased and email sent"⟩ ∧
    sampleEvent.tickets.sold + (race sampleDb 1 7 2 none 7 2 none overlapping).soldTogether
      = 12 ∧
    ¬ (sampleEvent.tickets.sold +
        (race sampleDb 1 7 2 none 7 2 none overlapping).soldTogether ≤ sampleEvent.limit) ∧
    (race sampleDb 1 7 2 none 7 2 none serial).second.pc =
      .done ⟨400, .message "Not enough tickets available"⟩ := by
  decide

/-- C10, amended: two `buyTicket` requests against the same event that are
handled one after the other (the second loads the event after the first has
decreased it) never jointly oversell: they behave as two calls of `buyTicket`
in a row, and for an event with `0 <= sold <= limit`, remaining quantity
`limit - sold` and quantities `>= 0`, sold plus the quantities of the
purchases answered 200 is at most the stored sold count, which stays within
the limit. -/
theorem serial_purchases_never_oversell (db : Db) (eventId u1 : Nat) (q1 : Int)
    (m1 : Option String) (u2 : Nat) (q2 : Int) (m2 : Option String) (event : Event)
    (hev : findById db.events eventId = some event) (hok : InventoryOk event)
    (h1 : 0 ≤ q1) (h2 : 0 ≤ q2) :
    (race db eventId u1 q1 m1 u2 q2 m2 serial).db =
      (buyTicket (buyTicket db noFaults eventId u1 q1 m1).2 noFaults eventId u2 q2 m2).2 ∧
    (race db eventId u1 q1 m1 u2 q2 m2 serial).first.pc =
      .done (buyTicket db noFaults eventId u1 q1 m1).1 ∧
    (race db eventId u1 q1 m1 u2 q2 m2 serial).second.pc =
      .done (buyTicket (buyTicket db noFaults eventId u1 q1 m1).2 noFaults
        eventId u2 q2 m2).1 ∧
    ∃ e', findById (race db eventId u1 q1 m1 u2 q2 m2 serial).db.events eventId = some e' ∧
      InventoryOk e' ∧ e'.limit = event.limit ∧
      event.tickets.sold + (race db eventId u1 q1 m1 u2 q2 m2 serial).soldTogether
        ≤ e'.tickets.sold ∧
      event.tickets.sold + (race db eventId u1 q1 m1 u2 q2 m2 serial).soldTogether
        ≤ event.limit := by
  rw [race_serial_eq]
  refine ⟨rfl, rfl, rfl, ?_⟩
  obtain ⟨ea, hfa, hoka, hla, hsa, hacca⟩ :=
    buyTicket_inventory_step db eventId u1 q1 m1 event hev hok h1
  obtain ⟨eb, hfb, hokb, hlb, hsb, haccb⟩ :=
    buyTicket_inventory_step (buyTicket db noFaults eventId u1 q1 m1).2 eventId u2 q2 m2
      ea hfa hoka h2
  have hbound : event.tickets.sold +
      ((if (buyTicket db noFaults eventId u1 q1 m1).1.status = 200 then q1 else 0) +
       (if (buyTicket (buyTicket db noFaults eventId u1 q1 m1).2 noFaults
          eventId u2 q2 m2).1.status = 200 then q2 else 0)) ≤ eb.tickets.sold := by
    split
    · rename_i ha
      have := hacca ha
      split
      · rename_i hb
        have := haccb hb
        omega
      · omega
    · split
      · rename_i hb
        have := haccb hb
        omega
      · omega
  have htog : (Race.soldTogether
      ⟨(buyTicket (buyTicket db noFaults eventId u1 q1 m1).2 noFaults eventId u2 q2 m2).2,
        { Purchase.new eventId u1 q1 m1 with
          pc := .done (buyTicket db noFaults eventId u1 q1 m1).1 },
        { Purchase.new eventId u2 q2 m2 with
          pc := .done (buyTicket (buyTicket db noFaults eventId u1 q1 m1).2 noFaults
            eventId u2 q2 m2).1 }⟩) =
      ((if (buyTicket db noFaults eventId u1 q1 m1).1.status = 200 then q1 else 0) +
       (if (buyTicket (buyTicket db noFaults eventId u1 q1 m1).2 noFaults
          eventId u2 q2 m2).1.status = 200 then q2 else 0)) := by
    simp [Race.soldTogether, Purchase.accepted, Purchase.new]
  rw [htog]
  have hle := hokb.2.1
  exact ⟨eb, hfb, hokb, by rw [hlb, hla], hbound, by rw [← hla, ← hlb]; omega⟩

/-- Witness for C10 amended: two purchases of 2 tickets of the event with 8 of 10
sold, one after the other: the first goes through, the second is refused, and
sold is 10. -/
theorem serial_purchases_never_oversell_witness :
    (race sampleDb 1 7 2 none 7 2 none serial).first.pc =
      .done (buyTicket sampleDb noFaults 1 7 2 none).1 ∧
    ∃ e', findById (race sampleDb 1 7 2 none 7 2 none serial).db.events 1 = some e' ∧
      InventoryOk e' ∧ e'.limit = sampleEvent.limit ∧
      sampleEvent.tickets.sold + (race sampleDb 1 7 2 none 7 2 none serial).soldTogether
        ≤ e'.tickets.sold ∧
      sampleEvent.tickets.sold + (race sampleDb 1 7 2 none 7 2 none serial).soldTogether
        ≤ sampleEvent.limit :=
  ⟨(serial_purchases_never_oversell sampleDb 1 7 2 none 7 2 none sampleEvent
      (by decide) (by decide) (by decide) (by decide)).2.1,
    (serial_purchases_never_oversell sampleDb 1 7 2 none 7 2 none sampleEvent
      (by decide) (by decide) (by decide) (by decide)).2.2.2⟩

end UmmahConnect
